import Mathlib

/-!
# Wallet UI components: PermissionsModal and AssetsMigrationBanner

A shallow embedding of the behavioural logic of
`src/components/Modals/PermissionsModal/PermissionsModal.js` and
`src/components/common/AssetsMigrationBanner/AssetsMigrationBanner.js`.

React state cells become fields of a state record, event handlers and effect
bodies become functions from a state to a new state together with the list of
side effects they issue, and JavaScript values are a small inductive type with
the language's truthiness, `typeof`, property access and `JSON.stringify`.
-/

namespace Wallet

/-! ## JavaScript values -/

/-- A JavaScript number: a finite double, given by its exact (rational) value,
or one of the three non-finite values. -/
inductive JSNum where
  | nan
  | posInf
  | negInf
  | fin (q : ℚ)

/-- JavaScript values. Objects are their own enumerable string-keyed
properties in property order. -/
inductive JSValue where
  | undefined
  | null
  | bool (b : Bool)
  | num (n : JSNum)
  | str (s : String)
  | func
  | arr (xs : List JSValue)
  | obj (ps : List (String × JSValue))

/-- An object: own enumerable properties in order. -/
abbrev JSObject := List (String × JSValue)

/-- Truthiness of a number (`ToBoolean`): `NaN` and `0` are falsy. -/
def JSNum.truthy : JSNum → Bool
  | .nan => false
  | .posInf => true
  | .negInf => true
  | .fin q => decide (q ≠ 0)

/-- Truthiness of a value (`ToBoolean`). -/
def JSValue.truthy : JSValue → Bool
  | .undefined => false
  | .null => false
  | .bool b => b
  | .num n => n.truthy
  | .str s => decide (s ≠ "")
  | .func => true
  | .arr _ => true
  | .obj _ => true

/-- The `typeof` operator. -/
def JSValue.typeof : JSValue → String
  | .undefined => "undefined"
  | .null => "object"
  | .bool _ => "boolean"
  | .num _ => "number"
  | .str _ => "string"
  | .func => "function"
  | .arr _ => "object"
  | .obj _ => "object"

/-- The `a && b` operator: the left operand when it is falsy, else the right. -/
def JSValue.and (a b : JSValue) : JSValue := if a.truthy then b else a

/-- The `a || b` operator: the left operand when it is truthy, else the right. -/
def JSValue.or (a b : JSValue) : JSValue := if a.truthy then a else b

/-- Property read `o.k` on an object: the value of the own property, or
`undefined` when there is none. -/
def JSObject.get (o : JSObject) (k : String) : JSValue :=
  match o.find? (fun p => p.1 == k) with
  | some p => p.2
  | none => .undefined

/-- The operator `delete o.k`. -/
def JSObject.delete (o : JSObject) (k : String) : JSObject :=
  o.filter (fun p => !(p.1 == k))

/-- Property write `o[k] = v` (also the effect of a later `k: v` in an object
literal after a spread): an existing property keeps its place, a new one is
added last. -/
def JSObject.set : JSObject → String → JSValue → JSObject
  | [], k, v => [(k, v)]
  | p :: ps, k, v => if p.1 == k then (k, v) :: ps else p :: JSObject.set ps k v

/-- Whether the object has an own property `k`. -/
def JSObject.has (o : JSObject) (k : String) : Bool :=
  o.any (fun p => p.1 == k)

/-- The names of the function-valued properties of `Object.prototype` (in a
browser, Annex B included). -/
def objectPrototypeMethods : List String :=
  ["constructor", "hasOwnProperty", "isPrototypeOf", "propertyIsEnumerable",
   "toLocaleString", "toString", "valueOf", "__defineGetter__", "__defineSetter__",
   "__lookupGetter__", "__lookupSetter__"]

/-- What a plain object inherits under the name `k`: a function for a method
of `Object.prototype`, the prototype object itself (no enumerable property)
from the getter of `__proto__`, and `undefined` for every other name. -/
def JSObject.inherited (k : String) : JSValue :=
  if objectPrototypeMethods.contains k then .func
  else if k == "__proto__" then .obj []
  else .undefined

/-- Computed property read `o[k]` on a plain object, for an arbitrary key: the
own property when there is one, else what is inherited from
`Object.prototype`. (`JSObject.get` is this read for the keys that
`Object.prototype` does not define.) -/
def JSObject.read (o : JSObject) (k : String) : JSValue :=
  if o.has k then o.get k else JSObject.inherited k

/-- The statement `o[k] = true` on a plain object, for an arbitrary key: an own
property is overwritten; otherwise the key `__proto__` reaches the inherited
setter, which ignores a value that is neither an object nor `null`; every
other key gets a new own property. (The place of an integer-like key in the
property order is not modelled.) -/
def JSObject.assignTrue (o : JSObject) (k : String) : JSObject :=
  if o.has k then o.set k (.bool true)
  else if k == "__proto__" then o
  else o.set k (.bool true)

/-- Member access `v.k` on an arbitrary value: a `TypeError` (`none`) on
`undefined` and `null`, the own property on an object, `undefined` otherwise. -/
def JSValue.member (v : JSValue) (k : String) : Option JSValue :=
  match v with
  | .undefined => none
  | .null => none
  | .obj ps => some (JSObject.get ps k)
  | _ => some .undefined

/-- Strict equality `v === s` against a string. -/
def JSValue.strictEqStr (v : JSValue) (s : String) : Bool :=
  match v with
  | .str t => t == s
  | _ => false

/-! ## JSON documents and `JSON.stringify` -/

/-- The abstract syntax of a JSON text. -/
inductive Json where
  | null
  | bool (b : Bool)
  | num (q : ℚ)
  | str (s : String)
  | arr (xs : List Json)
  | obj (ps : List (String × Json))

mutual
/-- `JSON.stringify` as a document: `none` is the result `undefined` (for
`undefined` and functions); non-finite numbers become `null`; in an array a
value without serialisation becomes `null`; in an object its property is
omitted. Function values are never called (no `toJSON` hook). -/
def jsonStringify : JSValue → Option Json
  | .undefined => none
  | .func => none
  | .null => some .null
  | .bool b => some (.bool b)
  | .num (.fin q) => some (.num q)
  | .num _ => some .null
  | .str s => some (.str s)
  | .arr xs => some (.arr (jsonElems xs))
  | .obj ps => some (.obj (jsonProps ps))
/-- Serialisation of the elements of an array. -/
def jsonElems : List JSValue → List Json
  | [] => []
  | x :: xs =>
    (match jsonStringify x with
      | some j => j
      | none => .null) :: jsonElems xs
/-- Serialisation of the properties of an object. -/
def jsonProps : List (String × JSValue) → List (String × Json)
  | [] => []
  | (k, v) :: ps =>
    match jsonStringify v with
    | some j => (k, j) :: jsonProps ps
    | none => jsonProps ps
end

/-! ## PermissionsModal -/

/-- The props of `PermissionsModal` that its logic reads. -/
structure Props where
  account : JSObject
  isBackupOptout : Bool
  showThankYouPage : Bool

/-- The values of `usePermissions()` and of `isFirefox()` at a render. -/
structure Permissions where
  isNoticationsGranted : Bool
  isClipboardGranted : Bool
  modalHidden : Bool
  isFirefox : Bool

/-- The four `useState` cells of the component. -/
structure ModalState where
  isEmailConfirmed : Bool
  isEmailResent : Bool
  isJsonBackupDownloaded : Bool
  resendTimeLeft : Int

/-- The initial values of the state cells. -/
def ModalState.init (p : Props) : ModalState :=
  { isEmailConfirmed := false
    isEmailResent := false
    isJsonBackupDownloaded := p.isBackupOptout
    resendTimeLeft := 60000 }

/-- A template literal with one interpolation followed by literal text. -/
structure Template where
  value : JSValue
  suffix : String

/-- A value caught by a `catch` block. -/
inductive Thrown where
  | rejected
  | typeError
  | noSuccess

/-- Side effects issued by the component. -/
inductive Effect where
  | fetchIdentity
  | fetchResend
  | onAddAccount (acc : JSObject)
  | downloadFile (data : Option Json) (fileName : Template) (fileType : String)
  | addToast (text : String) (e : Option Thrown) (error : Bool)
  | consoleError (e : Thrown)
  | consoleLog (v : JSObject)
  | askForPermission (name : String)
  | setModalHidden (b : Bool)
  | hideModal
  | openThankYouPage

/-- The text of the toast for a blocked permission. -/
def toastErrorMessage (name : String) : String :=
  "You blocked the " ++ name ++ " permission. Check your browser permissions tab."

/-- Line 39. -/
def areBlockedPermissions (q : Permissions) : Bool :=
  (!q.isFirefox && !q.isClipboardGranted) || !q.isNoticationsGranted

/-- Line 41. -/
def isAccountNotConfirmed (p : Props) (s : ModalState) : JSValue :=
  (p.account.get "emailConfRequired").and (.bool (!s.isEmailConfirmed))

/-- Line 42. -/
def buttonDisabled (p : Props) (q : Permissions) (s : ModalState) : JSValue :=
  (isAccountNotConfirmed p s).or (.bool (!q.modalHidden && areBlockedPermissions q))

/-- The `disabled` props of the two completion controls, as booleans. -/
structure Buttons where
  ignoreDisabled : Bool
  doneDisabled : Bool

/-- Lines 107-130: the controls handed to the modal. -/
def buttons (p : Props) (q : Permissions) (s : ModalState) : Buttons :=
  if s.isJsonBackupDownloaded then
    { ignoreDisabled := (isAccountNotConfirmed p s).truthy
      doneDisabled := (buttonDisabled p q s).truthy }
  else
    { ignoreDisabled := true
      doneDisabled := true }

/-- The outcome of an awaited `fetchGet`: `none` when the promise rejects. -/
abbrev FetchResult := Option JSValue

/-- Lines 43-55, the part of `sendConfirmationEmail` before the `await`. -/
def sendConfirmationEmail (s : ModalState) : ModalState × List Effect :=
  (s, [.fetchResend])

/-- Lines 46-54, the part of `sendConfirmationEmail` after the `await`. -/
def sendConfirmationEmailResume (r : FetchResult) (s : ModalState) :
    ModalState × List Effect :=
  let failed (e : Thrown) : ModalState × List Effect :=
    ({ s with isEmailResent := false },
      [.consoleError e, .addToast "Could not resend verification email." (some e) true])
  match r with
  | none => failed .rejected
  | some response =>
    match response.member "success" with
    | none => failed .typeError
    | some success =>
      if !success.truthy then failed .noSuccess
      else ({ s with isEmailResent := true }, [.addToast "Verification email sent!" none false])

/-- Lines 57-59, the part of `checkEmailConfirmation` before the `await`. -/
def checkEmailConfirmation (s : ModalState) : ModalState × List Effect :=
  (s, [.fetchIdentity])

/-- Lines 60-75, the part of `checkEmailConfirmation` after the `await`. -/
def checkEmailConfirmationResume (p : Props) (r : FetchResult) (s : ModalState) :
    ModalState × List Effect :=
  let failed (e : Thrown) : ModalState × List Effect :=
    (s, [.consoleError e, .addToast "Could not check email confirmation." none true])
  match r with
  | none => failed .rejected
  | some identity =>
    if identity.truthy then
      match identity.member "meta" with
      | none => failed .typeError
      | some meta =>
        match meta.member "emailConfirmed" with
        | none => failed .typeError
        | some emailConfirmed =>
          let isConfirmed := emailConfirmed.truthy
          ({ s with isEmailConfirmed := isConfirmed },
            if isConfirmed && (p.account.get "emailConfRequired").truthy then
              [.onAddAccount (p.account.set "emailConfRequired" (.bool false))]
            else [])
    else (s, [])

/-- Lines 89 and 91: `!isEmailConfirmed && checkEmailConfirmation()`, the body
of the polling effect and of each firing of its 3000 ms interval. -/
def pollIfUnconfirmed (s : ModalState) : ModalState × List Effect :=
  if !s.isEmailConfirmed then checkEmailConfirmation s else (s, [])

/-- Line 169: the updater run by each firing of the 1000 ms interval. -/
def resendTick (resendTimeLeft : Int) : Int :=
  if resendTimeLeft > 0 then resendTimeLeft - 1000 else 0

/-- Line 217: the `disabled` prop of the Resend control. -/
def resendDisabled (s : ModalState) : Bool :=
  s.resendTimeLeft != 0

/-- Lines 184 and 208: whether the Resend control is rendered. -/
def resendShown (p : Props) (s : ModalState) : Bool :=
  (p.account.get "email").truthy && (!s.isEmailConfirmed && !s.isEmailResent)

/-- The object bindings of `handleExportClicked`: the prop `account` and the
local `copiedAcc`. -/
structure ExportEnv where
  account : JSObject
  copiedAcc : JSObject

/-- Lines 151-153: `if (typeof copiedAcc.k !== 'undefined') delete copiedAcc.k`. -/
def stripFlag (k : String) (env : ExportEnv) : ExportEnv :=
  if (env.copiedAcc.get k).typeof != "undefined" then
    { env with copiedAcc := env.copiedAcc.delete k }
  else env

/-- Lines 149-153: the copy of the account and the three guarded deletes. -/
def exportEnv (account : JSObject) : ExportEnv :=
  stripFlag "cloudBackupOptout"
    (stripFlag "backupOptout"
      (stripFlag "emailConfRequired" { account := account, copiedAcc := account }))

/-- Lines 147-165. Returns the new state, the effects in order, and the
object bound to `account` when the handler returns. -/
def handleExportClicked (p : Props) (s : ModalState) :
    ModalState × List Effect × JSObject :=
  let env := exportEnv p.account
  ({ s with isJsonBackupDownloaded := true },
    [ .consoleLog p.account,
      .downloadFile (jsonStringify (.obj env.copiedAcc))
        { value := env.copiedAcc.get "id", suffix := ".json" } "text/json",
      .onAddAccount (env.account.set "backupOptout" (.bool false)) ],
    env.account)

/-- Lines 97-100. -/
def handleDoneOrIgnoreBtnsClicked (p : Props) (s : ModalState) : ModalState × List Effect :=
  (s, .hideModal :: (if p.showThankYouPage then [.openThankYouPage] else []))

/-- Lines 102-104. -/
def handleOnClose (p : Props) (s : ModalState) : ModalState × List Effect :=
  (s, if p.showThankYouPage then [.openThankYouPage] else [])

/-- Lines 78-86, the part of the permission requests after the `await`. -/
def requestPermissionResume (name : String) (status : Bool) (s : ModalState) :
    ModalState × List Effect :=
  (s, if !status then [.addToast (toastErrorMessage name) none true] else [])

/-- The events the component reacts to. -/
inductive Event where
  | resendInterval
  | emailConfirmationEffect
  | emailConfirmationInterval
  | identityResponse (r : FetchResult)
  | resendClicked
  | resendResponse (r : FetchResult)
  | exportClicked
  | doneClicked
  | ignoreClicked
  | closeClicked
  | notificationsToggled
  | clipboardToggled
  | notificationsAnswered (status : Bool)
  | clipboardAnswered (status : Bool)
  | checkboxChanged (checked : Bool)

/-- One reaction of the component, under the props and hook values of the
current render. A click on a control that is disabled or not rendered does
nothing. -/
def step (p : Props) (q : Permissions) (s : ModalState) : Event → ModalState × List Effect
  | .resendInterval => ({ s with resendTimeLeft := resendTick s.resendTimeLeft }, [])
  | .emailConfirmationEffect => pollIfUnconfirmed s
  | .emailConfirmationInterval => pollIfUnconfirmed s
  | .identityResponse r => checkEmailConfirmationResume p r s
  | .resendClicked =>
    if resendShown p s && !resendDisabled s then sendConfirmationEmail s else (s, [])
  | .resendResponse r => sendConfirmationEmailResume r s
  | .exportClicked => let r := handleExportClicked p s; (r.1, r.2.1)
  | .doneClicked =>
    if (buttons p q s).doneDisabled then (s, []) else handleDoneOrIgnoreBtnsClicked p s
  | .ignoreClicked =>
    if (buttons p q s).ignoreDisabled then (s, []) else handleDoneOrIgnoreBtnsClicked p s
  | .closeClicked => handleOnClose p s
  | .notificationsToggled => (s, [.askForPermission "notifications"])
  | .clipboardToggled => (s, [.askForPermission "clipboard-read"])
  | .notificationsAnswered status => requestPermissionResume "Notifications" status s
  | .clipboardAnswered status => requestPermissionResume "Clipboard" status s
  | .checkboxChanged checked => (s, [.setModalHidden checked])

/-- An input of a run: an event with the props and hook values of the render
it arrives in. -/
structure Input where
  props : Props
  perms : Permissions
  event : Event

/-- The state after a sequence of inputs. -/
def run (s : ModalState) : List Input → ModalState
  | [] => s
  | i :: is => run (step i.props i.perms s i.event).1 is

/-- The effects issued along a sequence of inputs, in order. -/
def runEffects (s : ModalState) : List Input → List Effect
  | [] => []
  | i :: is =>
    (step i.props i.perms s i.event).2 ++ runEffects (step i.props i.perms s i.event).1 is

/-- The state after `n` firings of the resend interval from the initial state. -/
def afterTicks (p : Props) (q : Permissions) (n : Nat) : ModalState :=
  run (ModalState.init p) (List.replicate n ⟨p, q, .resendInterval⟩)

/-! ### Observations on effects, the payload as specified, sample accounts -/

/-- The three transient account flags. -/
def transientFlags : List String :=
  ["emailConfRequired", "backupOptout", "cloudBackupOptout"]

/-- The exported payload as the specification words it: the account with the
three transient keys removed and every other property kept. -/
def strippedAccount (account : JSObject) : JSObject :=
  account.filter (fun kv => !transientFlags.contains kv.1)

/-- The records handed to `onAddAccount` among a list of effects. -/
def upstreamRecords : List Effect → List JSObject
  | [] => []
  | .onAddAccount acc :: es => acc :: upstreamRecords es
  | _ :: es => upstreamRecords es

/-- The downloads among a list of effects. -/
def downloads : List Effect → List (Option Json × Template × String)
  | [] => []
  | .downloadFile d n t :: es => (d, n, t) :: downloads es
  | _ :: es => downloads es

/-- An account record whose three transient keys are present with the values
`undefined`, `null` and `false`. -/
def backupAccount : JSObject :=
  [("id", .str "0xA"), ("email", .str "a@b.c"), ("emailConfRequired", .undefined),
   ("backupOptout", .null), ("cloudBackupOptout", .bool false), ("salt", .num (.fin 3))]

/-- A freshly created account record: no `backupOptout` key. -/
def newAccount : JSObject :=
  [("id", .str "0xA"), ("email", .str "a@b.c"), ("emailConfRequired", .bool true)]

/-! ### Counting the firings of the resend interval -/

/-- Whether an event is a firing of the resend interval. -/
def Event.isResendInterval : Event → Bool
  | .resendInterval => true
  | _ => false

/-- The number of firings of the resend interval in a sequence of inputs. -/
def tickCount (is : List Input) : Nat :=
  is.countP (fun i => i.event.isResendInterval)

/-- Props of a modal for `newAccount`. -/
def emailProps : Props := ⟨newAccount, false, false⟩

/-- Hook values with no permission granted. -/
def noPerms : Permissions := ⟨false, false, false, false⟩

/-- Sixty firings of the resend interval. -/
def sixtyTicks : List Input := List.replicate 60 ⟨emailProps, noPerms, .resendInterval⟩

/-! ## AssetsMigrationBanner -/

/-- The comparison `a > b` on numbers: false when either side is `NaN`. -/
def JSNum.gt : JSNum → JSNum → Bool
  | .nan, _ => false
  | _, .nan => false
  | .posInf, .posInf => false
  | .posInf, _ => true
  | _, .posInf => false
  | .negInf, _ => false
  | .fin _, .negInf => true
  | .fin a, .fin b => decide (b < a)

/-- The number the literal `0.001` denotes: the double `0x1.0624dd2f1a9fcp-10`,
that is `1152921504606847 / 2^60`. -/
def lit_0_001 : JSNum := .fin (1152921504606847 / 1152921504606846976)

/-- The number the literal `0.0005` denotes: the double `0x1.0624dd2f1a9fcp-11`,
that is `1152921504606847 / 2^61`. -/
def lit_0_0005 : JSNum := .fin (1152921504606847 / 2305843009213693952)

/-- The number the literal `1.2` denotes: the double `0x1.3333333333333p+0`,
that is `5404319552844595 / 2^52`. -/
def lit_1_2 : JSNum := .fin (5404319552844595 / 4503599627370496)

/-- An asset returned by the detector; only `balanceUSD` is read. -/
structure Asset where
  balanceUSD : JSNum

/-- Line 66: `assets.filter((a) => a.balanceUSD > 0.001)`. -/
def relevantAssets (assets : List Asset) : List Asset :=
  assets.filter (fun a => a.balanceUSD.gt lit_0_001)

/-- The state of the promise returned by the detector. -/
inductive Settlement where
  | pending
  | resolved (assets : List Asset)
  | rejected

/-- One run of the detection effect (lines 55-77): its own `unmounted`
variable, and the detector request it issued, if any. -/
structure DetectionRun where
  unmounted : Bool
  request : Option Settlement

/-- The props of the banner that its logic reads; `getWallet` is the outcome
of the call at lines 37-41, `none` when it throws. -/
structure BannerProps where
  selectedAccount : String
  accounts : List JSObject
  networkId : String
  closeable : Bool
  getWallet : Option JSValue

/-- The state of a banner instance: its two `useState` cells, the
`migrationSeen` storage entry, and the runs of the detection effect, newest
first. -/
structure BannerState where
  hasSignerAssets : Bool
  migrationMessageSeen : Bool
  storage : JSObject
  runs : List DetectionRun

/-- The state at mount, before any effect has run. -/
def BannerState.init (storage : JSObject) : BannerState :=
  { hasSignerAssets := false
    migrationMessageSeen := false
    storage := storage
    runs := [] }

/-- Side effects issued by the banner. -/
inductive BannerEffect where
  | detect (networkId : String) (account : JSValue)
  | consoleError
  | showModal

/-- Lines 34 and 60: `accounts.find((a) => a.id === id)`. -/
def findAccount (accounts : List JSObject) (id : String) : Option JSObject :=
  accounts.find? (fun a => (a.get "id").strictEqStr id)

/-- Lines 35-44: the value bound to `wallet`; `undefined` when reading
`currentAccount.signer` or the call of `getWallet` throws. -/
def walletOf (p : BannerProps) : JSValue :=
  match findAccount p.accounts p.selectedAccount with
  | none => .undefined
  | some _ =>
    match p.getWallet with
    | some w => w
    | none => .undefined

/-- The optional member access `v?.k`. -/
def JSValue.optMember (v : JSValue) (k : String) : JSValue :=
  match v.member k with
  | some x => x
  | none => .undefined

/-- Line 85. -/
def supportedHWWalletTypes : List String := ["ledger", "trezor", "Lattice"]

/-- The method `xs.includes(v)` on an array of strings. -/
def includesStr (xs : List String) (v : JSValue) : Bool :=
  match v with
  | .str s => xs.contains s
  | _ => false

/-- Lines 86-87: the value of `shouldShow`; `none` when reading
`currentAccount.signerExtra` throws. -/
def shouldShow (p : BannerProps) : Option JSValue :=
  let provider := (walletOf p).optMember "provider"
  if provider.truthy then some provider
  else
    match findAccount p.accounts p.selectedAccount with
    | none => none
    | some currentAccount =>
      let signerExtra := currentAccount.get "signerExtra"
      if signerExtra.truthy then
        match signerExtra.member "type" with
        | none => none
        | some t => some (.bool (includesStr supportedHWWalletTypes t))
      else some signerExtra

/-- Lines 88-118: whether the banner markup is rendered; `none` when the
render throws. -/
def bannerRendered (p : BannerProps) (s : BannerState) : Option Bool :=
  match shouldShow p with
  | none => none
  | some v => if !v.truthy then some false else some (s.hasSignerAssets && !s.migrationMessageSeen)

/-- Lines 46-52, with the storage updater applied. -/
def closeMigrationMessage (p : BannerProps) (s : BannerState) : BannerState :=
  { s with
    migrationMessageSeen := true
    storage := s.storage.assignTrue (p.selectedAccount ++ p.networkId) }

/-- Lines 80-82. -/
def seenEffect (p : BannerProps) (s : BannerState) : BannerState :=
  { s with
    migrationMessageSeen :=
      p.closeable && (s.storage.read (p.selectedAccount ++ p.networkId)).truthy }

/-- Line 76: the cleanup of the newest run of the detection effect. -/
def cleanupRuns : List DetectionRun → List DetectionRun
  | [] => []
  | r :: rs => { r with unmounted := true } :: rs

/-- Lines 59-63: the request `checkSignerAssets` issues, if any: none when
the account is not found (reading `signer` throws) or has no signer. -/
def checkSignerAssets (p : BannerProps) : Option BannerEffect :=
  match findAccount p.accounts p.selectedAccount with
  | none => none
  | some currentAccount =>
    let signer := currentAccount.get "signer"
    if !signer.truthy then none
    else some (.detect p.networkId (signer.optMember "address"))

/-- Lines 55-77, one run of the detection effect, after the cleanup of the
previous run. -/
def detectionEffect (p : BannerProps) (s : BannerState) : BannerState × List BannerEffect :=
  let runs := cleanupRuns s.runs
  match checkSignerAssets p with
  | none =>
    ({ s with hasSignerAssets := false, runs := { unmounted := false, request := none } :: runs },
      [])
  | some req =>
    ({ s with
        hasSignerAssets := false
        runs := { unmounted := false, request := some .pending } :: runs },
      [req])

/-- Lines 64-68: the `then` callback of a run, given the run's `unmounted`
variable; returns the new value of `hasSignerAssets`. -/
def onAssets (unmounted : Bool) (assets : List Asset) (hasSignerAssets : Bool) : Bool :=
  if unmounted then hasSignerAssets
  else decide ((relevantAssets assets).length ≠ 0)

/-- The events the banner reacts to. -/
inductive BannerEvent where
  | detectionEffect
  | resolved (i : Nat) (assets : List Asset)
  | rejected (i : Nat)
  | seenEffect
  | closeClicked
  | unmount

/-- One reaction of the banner under the props of the current render. A
promise settles at most once: settling a run without a pending request does
nothing. -/
def bannerStep (p : BannerProps) (s : BannerState) : BannerEvent → BannerState × List BannerEffect
  | .detectionEffect => detectionEffect p s
  | .resolved i assets =>
    match s.runs[i]? with
    | some ⟨unmounted, some .pending⟩ =>
      ({ s with
          hasSignerAssets := onAssets unmounted assets s.hasSignerAssets
          runs := s.runs.set i ⟨unmounted, some (.resolved assets)⟩ }, [])
    | _ => (s, [])
  | .rejected i =>
    match s.runs[i]? with
    | some ⟨unmounted, some .pending⟩ =>
      ({ s with runs := s.runs.set i ⟨unmounted, some .rejected⟩ }, [.consoleError])
    | _ => (s, [])
  | .seenEffect => (seenEffect p s, [])
  | .closeClicked => if p.closeable then (closeMigrationMessage p s, []) else (s, [])
  | .unmount => ({ s with runs := cleanupRuns s.runs }, [])

/-- An input of a banner run: an event with the props of the render it
arrives in. -/
structure BannerInput where
  props : BannerProps
  event : BannerEvent

/-- The banner state after a sequence of inputs. -/
def bannerRun (s : BannerState) : List BannerInput → BannerState
  | [] => s
  | i :: is => bannerRun (bannerStep i.props s i.event).1 is

/-- The most recently issued detector request, if any. -/
def latestRequest : List DetectionRun → Option DetectionRun
  | [] => none
  | r :: rs => if r.request.isSome then some r else latestRequest rs

/-! ### Stale detection results -/

/-- The invariant of the detection runs: every run but the newest has its
`unmounted` variable set, and `hasSignerAssets` is true only when the newest
run issued a request that resolved with a relevant asset. -/
def StaleInv (s : BannerState) : Prop :=
  (∀ (i : Nat) (r : DetectionRun), s.runs[i + 1]? = some r → r.unmounted = true)
  ∧ (s.hasSignerAssets = true →
      ∃ r rs assets, s.runs = r :: rs ∧ r.request = some (.resolved assets)
        ∧ relevantAssets assets ≠ [])

/-! ### Concrete instances -/

/-- An account whose email needs no confirmation. -/
def confirmedAccount : JSObject :=
  [("id", .str "0xB"), ("emailConfRequired", .bool false)]

/-- Props of a modal for `confirmedAccount`. -/
def confirmedProps : Props := ⟨confirmedAccount, false, false⟩

/-- Hook values with both permissions granted. -/
def allPerms : Permissions := ⟨true, true, false, false⟩

/-- An identity whose email is confirmed. -/
def confirmedIdentity : JSObject := [("meta", .obj [("emailConfirmed", .bool true)])]

/-- An account with a signer of a supported hardware-wallet type. -/
def signerAccount : JSObject :=
  [("id", .str "0xA"), ("signer", .obj [("address", .str "0xS")]),
   ("signerExtra", .obj [("type", .str "ledger")])]

/-- Banner props for `signerAccount` on one network. -/
def bannerPropsX : BannerProps := ⟨"0xA", [signerAccount], "ethereum", true, none⟩

/-- Banner props for `signerAccount` on another network. -/
def bannerPropsY : BannerProps := ⟨"0xA", [signerAccount], "polygon", true, none⟩

/-- An account whose id is the string `to`. -/
def shortIdAccount : JSObject :=
  [("id", .str "to"), ("signer", .obj [("address", .str "0xS")]),
   ("signerExtra", .obj [("type", .str "ledger")])]

/-- Banner props for `shortIdAccount` on the network `ethereum`. -/
def shortIdPropsX : BannerProps := ⟨"to", [shortIdAccount], "ethereum", true, none⟩

/-- Banner props for `shortIdAccount` on a network whose id is `String`. -/
def shortIdPropsY : BannerProps := ⟨"to", [shortIdAccount], "String", true, none⟩

/-- Banner props whose account id and network id concatenate to `__proto__`. -/
def protoKeyProps : BannerProps := ⟨"__pro", [], "to__", true, none⟩

/-- The state after the detection effect has run once for `bannerPropsX`. -/
def detecting : BannerState :=
  (bannerStep bannerPropsX (BannerState.init []) .detectionEffect).1

/-- The state after the detection effect has run for `bannerPropsX` and then
for `bannerPropsY`. -/
def redetecting : BannerState :=
  (bannerStep bannerPropsY detecting .detectionEffect).1

/-! ## Properties of PermissionsModal -/

theorem JSValue.truthy_and (a b : JSValue) : (a.and b).truthy = (a.truthy && b.truthy) := by
  unfold JSValue.and
  cases h : a.truthy <;> simp [h]

theorem JSValue.truthy_or (a b : JSValue) : (a.or b).truthy = (a.truthy || b.truthy) := by
  unfold JSValue.or
  cases h : a.truthy <;> simp [h]

theorem JSValue.truthy_bool (b : Bool) : (JSValue.bool b).truthy = b := rfl

theorem JSValue.truthy_obj (ps : List (String × JSValue)) : (JSValue.obj ps).truthy = true := rfl

theorem step_flag_of_ne_export (p : Props) (q : Permissions) (s : ModalState) (e : Event)
    (he : e ≠ .exportClicked) :
    (step p q s e).1.isJsonBackupDownloaded = s.isJsonBackupDownloaded := by
  cases e <;>
    simp [step, pollIfUnconfirmed, checkEmailConfirmation, sendConfirmationEmail,
      sendConfirmationEmailResume, checkEmailConfirmationResume, handleDoneOrIgnoreBtnsClicked,
      handleOnClose, requestPermissionResume] at he ⊢ <;>
    repeat (first | rfl | split)

theorem step_flag_mono (p : Props) (q : Permissions) (s : ModalState) (e : Event)
    (hs : s.isJsonBackupDownloaded = true) :
    (step p q s e).1.isJsonBackupDownloaded = true := by
  by_cases he : e = .exportClicked
  · subst he; rfl
  · rw [step_flag_of_ne_export p q s e he, hs]

theorem run_flag_mono (is : List Input) :
    ∀ s : ModalState, s.isJsonBackupDownloaded = true →
      (run s is).isJsonBackupDownloaded = true := by
  induction is with
  | nil => intro s hs; exact hs
  | cons i is ih => intro s hs; exact ih _ (step_flag_mono i.props i.perms s i.event hs)

theorem run_flag_origin (is : List Input) :
    ∀ s : ModalState, (run s is).isJsonBackupDownloaded = true →
      s.isJsonBackupDownloaded = true ∨ ∃ i ∈ is, i.event = .exportClicked := by
  induction is with
  | nil => intro s hs; exact Or.inl hs
  | cons i is ih =>
    intro s hs
    rcases ih _ hs with h | ⟨j, hj, hje⟩
    · by_cases he : i.event = .exportClicked
      · exact Or.inr ⟨i, List.mem_cons_self _ _, he⟩
      · rw [step_flag_of_ne_export i.props i.perms s i.event he] at h
        exact Or.inl h
    · exact Or.inr ⟨j, List.mem_cons_of_mem _ hj, hje⟩

theorem buttons_of_not_downloaded (p : Props) (q : Permissions) (s : ModalState)
    (hs : s.isJsonBackupDownloaded = false) :
    (buttons p q s).ignoreDisabled = true ∧ (buttons p q s).doneDisabled = true := by
  simp [buttons, hs]

theorem run_append (a b : List Input) :
    ∀ s : ModalState, run s (a ++ b) = run (run s a) b := by
  induction a with
  | nil => intro s; rfl
  | cons i a ih => intro s; exact ih _

theorem afterTicks_succ (p : Props) (q : Permissions) (n : Nat) :
    afterTicks p q (n + 1) = (step p q (afterTicks p q n) .resendInterval).1 := by
  unfold afterTicks
  rw [List.replicate_succ', run_append]
  rfl

theorem afterTicks_resendTimeLeft (p : Props) (q : Permissions) (n : Nat) :
    (afterTicks p q n).resendTimeLeft = max 0 (60000 - 1000 * (n : Int)) := by
  induction n with
  | zero => rfl
  | succ n ih =>
    rw [afterTicks_succ]
    simp only [step, resendTick, ih]
    push_cast
    rcases le_or_lt (60000 - 1000 * (n : Int)) 0 with h | h
    · rw [max_eq_left h, max_eq_left (by omega)]; simp
    · rw [max_eq_right h.le, if_pos (by omega), max_eq_right (by omega)]; ring

/-- C1. Backup gate: the flag `isJsonBackupDownloaded` starts as
`isBackupOptout`; every event other than the export click leaves it unchanged;
`handleExportClicked` sets it to true from every state (so a repeated export
leaves it true); along every sequence of inputs a true flag stays true; while
the flag is false both Ignore and Done are disabled; and when Done is enabled
after a run from the initial state, then the account is backup-opt-out or the
run contains an export click. -/
theorem backup_gate :
    (∀ p : Props, (ModalState.init p).isJsonBackupDownloaded = p.isBackupOptout)
    ∧ (∀ (p : Props) (q : Permissions) (s : ModalState) (e : Event),
        e ≠ .exportClicked →
        (step p q s e).1.isJsonBackupDownloaded = s.isJsonBackupDownloaded)
    ∧ (∀ (p : Props) (s : ModalState),
        (handleExportClicked p s).1.isJsonBackupDownloaded = true
        ∧ (handleExportClicked p (handleExportClicked p s).1).1.isJsonBackupDownloaded = true)
    ∧ (∀ (p : Props) (q : Permissions) (s : ModalState),
        (step p q s .exportClicked).1.isJsonBackupDownloaded = true)
    ∧ (∀ (s : ModalState) (is js : List Input),
        (run s is).isJsonBackupDownloaded = true →
        (run s (is ++ js)).isJsonBackupDownloaded = true)
    ∧ (∀ (p : Props) (q : Permissions) (s : ModalState),
        s.isJsonBackupDownloaded = false →
        (buttons p q s).ignoreDisabled = true ∧ (buttons p q s).doneDisabled = true)
    ∧ (∀ (p0 p : Props) (q : Permissions) (is : List Input),
        (buttons p q (run (ModalState.init p0) is)).doneDisabled = false →
        p0.isBackupOptout = true ∨ ∃ i ∈ is, i.event = .exportClicked) := by
  refine ⟨fun _ => rfl, step_flag_of_ne_export, fun _ _ => ⟨rfl, rfl⟩, fun _ _ _ => rfl,
    ?_, buttons_of_not_downloaded, ?_⟩
  · intro s is js h
    rw [run_append]
    exact run_flag_mono js _ h
  · intro p0 p q is h
    apply run_flag_origin is (ModalState.init p0)
    by_contra hf
    have := (buttons_of_not_downloaded p q _ (by simpa using hf)).2
    rw [this] at h
    exact Bool.noConfusion h

/-- C2. Email-confirmation gating: whenever `account.emailConfRequired` is
truthy and the email is not confirmed, Ignore and Done are both disabled, for
every backup, permission and do-not-show-again state; and whenever
`account.emailConfRequired` is falsy (in particular `false`), the disabled
flags of Ignore and of Done are the same for `isEmailConfirmed = true` and
`isEmailConfirmed = false`, all other state held fixed. -/
theorem email_confirmation_gating :
    (∀ (p : Props) (q : Permissions) (s : ModalState),
        (p.account.get "emailConfRequired").truthy = true →
        s.isEmailConfirmed = false →
        (buttons p q s).ignoreDisabled = true ∧ (buttons p q s).doneDisabled = true)
    ∧ (∀ (p : Props) (q : Permissions) (s : ModalState),
        (p.account.get "emailConfRequired").truthy = false →
        (buttons p q { s with isEmailConfirmed := true }).ignoreDisabled
          = (buttons p q { s with isEmailConfirmed := false }).ignoreDisabled
        ∧ (buttons p q { s with isEmailConfirmed := true }).doneDisabled
          = (buttons p q { s with isEmailConfirmed := false }).doneDisabled) := by
  constructor
  · intro p q s hr hc
    cases hd : s.isJsonBackupDownloaded <;>
      simp [buttons, buttonDisabled, isAccountNotConfirmed, JSValue.truthy_and,
        JSValue.truthy_or, JSValue.truthy_bool, hr, hc, hd]
  · intro p q s hr
    cases hd : s.isJsonBackupDownloaded <;>
      simp [buttons, buttonDisabled, isAccountNotConfirmed, JSValue.truthy_and,
        JSValue.truthy_or, JSValue.truthy_bool, hr, hd]

/-- C5. Resend cooldown arithmetic: the cooldown starts at 60000; a tick maps
`t` to `t - 1000` when `t > 0` and to `0` otherwise; after `n` ticks it equals
`max 0 (60000 - 1000 * n)`, so it drops by exactly 1000 on a tick while
positive, is never negative, and stays 0 once 0; the Resend control is
disabled exactly when the cooldown is not 0, hence enabled iff the cooldown is
0, iff at least 60 ticks have passed. -/
theorem resend_cooldown_arithmetic (p : Props) (q : Permissions) (n : Nat) :
    (afterTicks p q 0).resendTimeLeft = 60000
    ∧ (∀ (s : ModalState),
        (step p q s .resendInterval).1.resendTimeLeft
          = if s.resendTimeLeft > 0 then s.resendTimeLeft - 1000 else 0)
    ∧ (afterTicks p q n).resendTimeLeft = max 0 (60000 - 1000 * (n : Int))
    ∧ (0 < (afterTicks p q n).resendTimeLeft →
        (afterTicks p q (n + 1)).resendTimeLeft = (afterTicks p q n).resendTimeLeft - 1000)
    ∧ 0 ≤ (afterTicks p q n).resendTimeLeft
    ∧ ((afterTicks p q n).resendTimeLeft = 0 →
        ∀ m : Nat, (afterTicks p q (n + m)).resendTimeLeft = 0)
    ∧ resendDisabled (afterTicks p q n) = decide ((afterTicks p q n).resendTimeLeft ≠ 0)
    ∧ (resendDisabled (afterTicks p q n) = false ↔ (afterTicks p q n).resendTimeLeft = 0)
    ∧ (resendDisabled (afterTicks p q n) = false ↔ 60 ≤ n) := by
  have key := afterTicks_resendTimeLeft p q
  refine ⟨rfl, fun _ => rfl, key n, ?_, ?_, ?_, ?_, ?_, ?_⟩
  · intro h
    rw [key] at h ⊢
    rw [key]
    push_cast
    omega
  · rw [key]; exact le_max_left _ _
  · intro h m
    rw [key] at h ⊢
    push_cast
    omega
  · rw [resendDisabled, bne, Bool.eq_iff_iff]; simp
  · simp [resendDisabled]
  · simp only [resendDisabled, key]
    simp
    omega

theorem JSValue.typeof_eq_undefined (v : JSValue) :
    v.typeof = "undefined" ↔ v = .undefined := by
  cases v <;> simp [JSValue.typeof]

theorem jsonProps_filter_key (g : String → Bool) (o : JSObject) :
    jsonProps (o.filter (fun kv => g kv.1)) = (jsonProps o).filter (fun kv => g kv.1) := by
  induction o with
  | nil => rfl
  | cons kv o ih =>
    obtain ⟨k, v⟩ := kv
    cases hg : g k <;> cases hv : jsonStringify v <;>
      simp [List.filter_cons, jsonProps, hg, hv, ih]

theorem jsonProps_key_mem (o : JSObject) (kv : String × Json) (h : kv ∈ jsonProps o) :
    kv.1 ∈ o.map Prod.fst := by
  induction o with
  | nil => simp [jsonProps] at h
  | cons p o ih =>
    obtain ⟨k, v⟩ := p
    cases hv : jsonStringify v with
    | none =>
      simp only [jsonProps, hv] at h
      exact List.mem_cons_of_mem _ (ih h)
    | some j =>
      simp only [jsonProps, hv, List.mem_cons] at h
      rcases h with h | h
      · subst h; simp
      · exact List.mem_cons_of_mem _ (ih h)

theorem jsonProps_no_key_of_get_undefined (k : String) (o : JSObject)
    (hn : (o.map Prod.fst).Nodup) (hg : o.get k = .undefined) :
    ∀ kv ∈ jsonProps o, kv.1 ≠ k := by
  induction o with
  | nil => intro kv h; simp [jsonProps] at h
  | cons p o ih =>
    obtain ⟨k', v⟩ := p
    simp only [List.map_cons, List.nodup_cons] at hn
    intro kv h
    by_cases hk : k' = k
    · subst hk
      have hv : v = .undefined := by simpa [JSObject.get, List.find?] using hg
      subst hv
      simp only [jsonProps, jsonStringify] at h
      intro hkv
      exact hn.1 (hkv ▸ jsonProps_key_mem o kv h)
    · have hg' : JSObject.get o k = .undefined := by
        have : (k' == k) = false := by simpa using hk
        simpa [JSObject.get, List.find?, this] using hg
      cases hv : jsonStringify v with
      | none =>
        simp only [jsonProps, hv] at h
        exact ih hn.2 hg' kv h
      | some j =>
        simp only [jsonProps, hv, List.mem_cons] at h
        rcases h with h | h
        · subst h; exact hk
        · exact ih hn.2 hg' kv h

theorem nodup_keys_delete (k : String) (o : JSObject) (hn : (o.map Prod.fst).Nodup) :
    ((o.delete k).map Prod.fst).Nodup :=
  (List.Sublist.map _ (List.filter_sublist _)).nodup hn

theorem stripFlag_account (k : String) (env : ExportEnv) :
    (stripFlag k env).account = env.account := by
  unfold stripFlag; split <;> rfl

theorem stripFlag_nodup (k : String) (env : ExportEnv)
    (hn : (env.copiedAcc.map Prod.fst).Nodup) :
    ((stripFlag k env).copiedAcc.map Prod.fst).Nodup := by
  unfold stripFlag; split
  · exact nodup_keys_delete k _ hn
  · exact hn

theorem stripFlag_jsonProps (k : String) (env : ExportEnv)
    (hn : (env.copiedAcc.map Prod.fst).Nodup) :
    jsonProps (stripFlag k env).copiedAcc
      = (jsonProps env.copiedAcc).filter (fun kv => !(kv.1 == k)) := by
  unfold stripFlag; split
  · exact jsonProps_filter_key (fun x => !(x == k)) env.copiedAcc
  · rename_i h
    have hu : env.copiedAcc.get k = .undefined := by
      rw [← JSValue.typeof_eq_undefined]; simpa using h
    symm
    rw [List.filter_eq_self]
    intro kv hkv
    simpa using jsonProps_no_key_of_get_undefined k _ hn hu kv hkv

theorem get_filter_key (g : String → Bool) (o : JSObject) (k : String) (hk : g k = true) :
    JSObject.get (o.filter (fun kv => g kv.1)) k = JSObject.get o k := by
  induction o with
  | nil => rfl
  | cons p o ih =>
    obtain ⟨k', v⟩ := p
    by_cases hkk : k' = k
    · subst hkk; simp [List.filter_cons, hk, JSObject.get, List.find?]
    · have hb : (k' == k) = false := by simpa using hkk
      unfold JSObject.get at ih ⊢
      cases hg : g k' <;>
        simp only [List.filter_cons, hg, List.find?_cons, hb, Bool.false_eq_true, if_false,
          if_true] <;>
        exact ih

theorem stripFlag_get (k k' : String) (env : ExportEnv) (hk : k' ≠ k) :
    (stripFlag k env).copiedAcc.get k' = env.copiedAcc.get k' := by
  unfold stripFlag; split
  · exact get_filter_key (fun x => !(x == k)) env.copiedAcc k' (by simpa using hk)
  · rfl

theorem get_set_self (o : JSObject) (k : String) (v : JSValue) :
    JSObject.get (JSObject.set o k v) k = v := by
  induction o with
  | nil => simp [JSObject.set, JSObject.get, List.find?]
  | cons kv o ih =>
    by_cases h : kv.1 = k
    · simp [JSObject.set, h, JSObject.get, List.find?]
    · have hb : (kv.1 == k) = false := by simpa using h
      unfold JSObject.get at ih ⊢
      simp only [JSObject.set, hb, Bool.false_eq_true, if_false, List.find?_cons]
      exact ih

theorem get_set_ne (o : JSObject) (k k' : String) (v : JSValue) (hk : k' ≠ k) :
    JSObject.get (JSObject.set o k v) k' = JSObject.get o k' := by
  have hkb : (k == k') = false := by simpa using (Ne.symm hk)
  induction o with
  | nil => simp [JSObject.set, JSObject.get, List.find?, hkb]
  | cons kv o ih =>
    unfold JSObject.get at ih ⊢
    by_cases h : kv.1 = k
    · have hb : (kv.1 == k') = false := by rw [h]; exact hkb
      simp [JSObject.set, h, List.find?_cons, hkb, hb]
    · have hb : (kv.1 == k) = false := by simpa using h
      simp only [JSObject.set, hb, Bool.false_eq_true, if_false, List.find?_cons]
      cases hc : kv.1 == k'
      · exact ih
      · rfl

theorem has_set_self (o : JSObject) (k : String) (v : JSValue) :
    JSObject.has (JSObject.set o k v) k = true := by
  induction o with
  | nil => simp [JSObject.set, JSObject.has]
  | cons kv o ih =>
    unfold JSObject.has at ih ⊢
    by_cases h : kv.1 = k
    · simp [JSObject.set, h]
    · have hb : (kv.1 == k) = false := by simpa using h
      simp only [JSObject.set, hb, Bool.false_eq_true, if_false, List.any_cons, ih,
        Bool.or_true]

theorem has_set_ne (o : JSObject) (k k' : String) (v : JSValue) (hk : k' ≠ k) :
    JSObject.has (JSObject.set o k v) k' = JSObject.has o k' := by
  have hkb : (k == k') = false := by simpa using (Ne.symm hk)
  induction o with
  | nil => simp [JSObject.set, JSObject.has, hkb]
  | cons kv o ih =>
    unfold JSObject.has at ih ⊢
    by_cases h : kv.1 = k
    · have hb : (kv.1 == k') = false := by rw [h]; exact hkb
      simp [JSObject.set, h, hkb, hb]
    · have hb : (kv.1 == k) = false := by simpa using h
      simp only [JSObject.set, hb, Bool.false_eq_true, if_false, List.any_cons, ih]

theorem exportEnv_account (account : JSObject) : (exportEnv account).account = account := by
  simp [exportEnv, stripFlag_account]

theorem exportEnv_jsonProps (account : JSObject) (hn : (account.map Prod.fst).Nodup) :
    jsonProps (exportEnv account).copiedAcc
      = (jsonProps account).filter (fun kv => !transientFlags.contains kv.1) := by
  have h1 := stripFlag_nodup "emailConfRequired" ⟨account, account⟩ hn
  have h2 := stripFlag_nodup "backupOptout" _ h1
  unfold exportEnv
  rw [stripFlag_jsonProps _ _ h2, stripFlag_jsonProps _ _ h1, stripFlag_jsonProps _ _ hn,
    List.filter_filter, List.filter_filter]
  congr 1
  funext kv
  simp only [transientFlags, List.contains, List.elem]
  cases (kv.1 == "emailConfRequired") <;> cases (kv.1 == "backupOptout") <;>
    cases (kv.1 == "cloudBackupOptout") <;> rfl

theorem exportEnv_get_id (account : JSObject) :
    (exportEnv account).copiedAcc.get "id" = account.get "id" := by
  unfold exportEnv
  rw [stripFlag_get _ _ _ (by decide), stripFlag_get _ _ _ (by decide),
    stripFlag_get _ _ _ (by decide)]

/-- C3. Backup export payload: for every account record (an object, so with
distinct keys), `handleExportClicked` issues exactly one download, of type
`text/json`, named by the template `${account.id}.json`, whose content is the
JSON serialisation of the account with the keys `emailConfRequired`,
`backupOptout` and `cloudBackupOptout` removed: the document has the members
of the serialised account other than those three keys, each with its value,
none of the three keys occurs in it, and every other key of the stripped
record reads as in the account. No assumption is made on the values of the
three keys (present with `undefined`, `null`, `false` or anything else). -/
theorem export_payload (p : Props) (s : ModalState)
    (hn : (p.account.map Prod.fst).Nodup) :
    downloads (handleExportClicked p s).2.1
        = [(jsonStringify (.obj (strippedAccount p.account)),
            { value := p.account.get "id", suffix := ".json" }, "text/json")]
    ∧ jsonStringify (.obj (strippedAccount p.account))
        = some (.obj ((jsonProps p.account).filter (fun kv => !transientFlags.contains kv.1)))
    ∧ (∀ kv ∈ (jsonProps p.account).filter (fun kv => !transientFlags.contains kv.1),
        kv.1 ∉ transientFlags)
    ∧ (∀ k ∈ transientFlags, (strippedAccount p.account).has k = false)
    ∧ (∀ k, k ∉ transientFlags → (strippedAccount p.account).get k = p.account.get k) := by
  have hs : jsonStringify (.obj (strippedAccount p.account))
      = some (.obj ((jsonProps p.account).filter (fun kv => !transientFlags.contains kv.1))) := by
    simp only [jsonStringify, strippedAccount]
    rw [jsonProps_filter_key (fun k => !transientFlags.contains k)]
  refine ⟨?_, hs, ?_, ?_, ?_⟩
  · rw [hs]
    simp only [handleExportClicked, downloads, jsonStringify]
    rw [exportEnv_jsonProps _ hn, exportEnv_get_id]
  · intro kv hkv
    have := (List.mem_filter.mp hkv).2
    simpa using this
  · intro k hk
    simp only [strippedAccount, JSObject.has, List.any_filter, List.any_eq_false]
    intro kv _
    by_cases h : kv.1 = k
    · subst h; simp [hk]
    · simp [h]
  · intro k hk
    exact get_filter_key (fun k => !transientFlags.contains k) p.account k (by simpa using hk)

/-- The export of `backupAccount`: the guarded delete is skipped for
`emailConfRequired` (the copy still has the key), and the document has none
of the three keys. -/
theorem export_backupAccount :
    (exportEnv backupAccount).copiedAcc.has "emailConfRequired" = true
    ∧ (exportEnv backupAccount).copiedAcc.has "backupOptout" = false
    ∧ (exportEnv backupAccount).copiedAcc.has "cloudBackupOptout" = false
    ∧ downloads (handleExportClicked ⟨backupAccount, false, false⟩
          (ModalState.init ⟨backupAccount, false, false⟩)).2.1
        = [(some (.obj [("id", .str "0xA"), ("email", .str "a@b.c"), ("salt", .num 3)]),
            { value := .str "0xA", suffix := ".json" }, "text/json")] :=
  ⟨by decide, by decide, by decide, rfl⟩

theorem export_payload_witness :
    (backupAccount.map Prod.fst).Nodup
    ∧ downloads (handleExportClicked ⟨backupAccount, false, false⟩
          (ModalState.init ⟨backupAccount, false, false⟩)).2.1
        = [(jsonStringify (.obj (strippedAccount backupAccount)),
            { value := backupAccount.get "id", suffix := ".json" }, "text/json")] :=
  ⟨by decide,
    (export_payload ⟨backupAccount, false, false⟩ (ModalState.init ⟨backupAccount, false, false⟩)
      (by decide)).1⟩

/-- C4, as stated, fails: the account `newAccount` has no `backupOptout`
entry, and the one record the export submits through `onAddAccount` has a
`backupOptout` entry (with the value `false`). -/
theorem export_upstream_backupOptout_added :
    newAccount.has "backupOptout" = false
    ∧ (upstreamRecords (handleExportClicked ⟨newAccount, false, false⟩
          (ModalState.init ⟨newAccount, false, false⟩)).2.1).map
        (fun r => r.has "backupOptout") = [true]
    ∧ upstreamRecords (handleExportClicked ⟨newAccount, false, false⟩
          (ModalState.init ⟨newAccount, false, false⟩)).2.1
        = [[("id", .str "0xA"), ("email", .str "a@b.c"), ("emailConfRequired", .bool true),
            ("backupOptout", .bool false)]] :=
  ⟨by decide, by decide, rfl⟩

/-- C4, amended. For every account, `handleExportClicked` leaves the object
bound to `account` as it was, and submits exactly one record through
`onAddAccount`: the account with `backupOptout` set to `false`. That record
has, for every key other than `backupOptout` (so for `emailConfRequired` and
`cloudBackupOptout`), the same presence and the same value as the account,
and its `backupOptout` entry is present with the value `false`. -/
theorem export_upstream_record (p : Props) (s : ModalState) :
    (handleExportClicked p s).2.2 = p.account
    ∧ upstreamRecords (handleExportClicked p s).2.1
        = [p.account.set "backupOptout" (.bool false)]
    ∧ (∀ k, k ≠ "backupOptout" →
        (p.account.set "backupOptout" (.bool false)).get k = p.account.get k
        ∧ (p.account.set "backupOptout" (.bool false)).has k = p.account.has k)
    ∧ ((p.account.set "backupOptout" (.bool false)).get "emailConfRequired"
          = p.account.get "emailConfRequired"
        ∧ (p.account.set "backupOptout" (.bool false)).has "emailConfRequired"
          = p.account.has "emailConfRequired")
    ∧ ((p.account.set "backupOptout" (.bool false)).get "cloudBackupOptout"
          = p.account.get "cloudBackupOptout"
        ∧ (p.account.set "backupOptout" (.bool false)).has "cloudBackupOptout"
          = p.account.has "cloudBackupOptout")
    ∧ (p.account.set "backupOptout" (.bool false)).get "backupOptout" = .bool false
    ∧ (p.account.set "backupOptout" (.bool false)).has "backupOptout" = true := by
  have hne : ∀ k, k ≠ "backupOptout" →
      (p.account.set "backupOptout" (.bool false)).get k = p.account.get k
      ∧ (p.account.set "backupOptout" (.bool false)).has k = p.account.has k :=
    fun k hk => ⟨get_set_ne _ _ _ _ hk, has_set_ne _ _ _ _ hk⟩
  refine ⟨exportEnv_account _, ?_, hne, hne _ (by decide), hne _ (by decide),
    get_set_self _ _ _, has_set_self _ _ _⟩
  simp only [handleExportClicked, upstreamRecords, exportEnv_account]

theorem step_resendTimeLeft_of_not_tick (p : Props) (q : Permissions) (s : ModalState)
    (e : Event) (he : e.isResendInterval = false) :
    (step p q s e).1.resendTimeLeft = s.resendTimeLeft := by
  cases e <;>
    simp [step, pollIfUnconfirmed, checkEmailConfirmation, sendConfirmationEmail,
      sendConfirmationEmailResume, checkEmailConfirmationResume, handleDoneOrIgnoreBtnsClicked,
      handleOnClose, requestPermissionResume, handleExportClicked,
      Event.isResendInterval] at he ⊢ <;>
    repeat (first | rfl | split)

theorem step_fetchResend (p : Props) (q : Permissions) (s : ModalState) (e : Event)
    (h : Effect.fetchResend ∈ (step p q s e).2) :
    e = .resendClicked ∧ resendShown p s = true ∧ s.resendTimeLeft = 0 := by
  cases e with
  | resendClicked =>
    simp only [step] at h
    split at h
    · rename_i hg
      simp [resendDisabled] at hg
      exact ⟨rfl, hg.1, hg.2⟩
    · simp at h
  | identityResponse r =>
    exfalso
    simp only [step, checkEmailConfirmationResume] at h
    repeat' split at h
    all_goals simp at h
  | resendResponse r =>
    exfalso
    simp only [step, sendConfirmationEmailResume] at h
    repeat' split at h
    all_goals simp at h
  | _ =>
    exfalso
    simp only [step, pollIfUnconfirmed, checkEmailConfirmation, handleDoneOrIgnoreBtnsClicked,
      handleOnClose, requestPermissionResume, handleExportClicked] at h
    repeat' split at h
    all_goals simp at h

theorem run_resendTimeLeft (is : List Input) :
    ∀ (s : ModalState) (k : Nat), s.resendTimeLeft = max 0 (60000 - 1000 * (k : Int)) →
      (run s is).resendTimeLeft = max 0 (60000 - 1000 * ((k + tickCount is : Nat) : Int)) := by
  induction is with
  | nil => intro s k h; simpa [run, tickCount] using h
  | cons i is ih =>
    intro s k h
    cases ht : i.event.isResendInterval
    · have := ih (step i.props i.perms s i.event).1 k
        (by rw [step_resendTimeLeft_of_not_tick _ _ _ _ ht]; exact h)
      simpa [run, tickCount, List.countP_cons, ht] using this
    · have he : i.event = .resendInterval := by
        cases hi : i.event <;> simp [hi, Event.isResendInterval] at ht ⊢
      have := ih (step i.props i.perms s i.event).1 (k + 1) (by
        rw [he]
        simp only [step, resendTick, h]
        push_cast
        rcases le_or_lt (60000 - 1000 * (k : Int)) 0 with h' | h'
        · rw [max_eq_left h', max_eq_left (by omega)]; simp
        · rw [max_eq_right h'.le, if_pos (by omega), max_eq_right (by omega)]; ring)
      simp only [run, tickCount, List.countP_cons, ht] at this ⊢
      rw [this, if_pos trivial, Nat.add_assoc, Nat.add_comm 1]

set_option maxRecDepth 20000 in
/-- C6, as stated, fails: after the sixty ticks since mount, a resend click
issues a request and leaves the cooldown at 0 with the control enabled, and a
second click right after it (no tick in between, with or without a failed
relayer response in between) issues a second request. -/
theorem resend_twice_without_cooldown :
    runEffects (ModalState.init emailProps)
        (sixtyTicks ++ [⟨emailProps, noPerms, .resendClicked⟩,
          ⟨emailProps, noPerms, .resendClicked⟩])
      = [.fetchResend, .fetchResend]
    ∧ (run (ModalState.init emailProps)
        (sixtyTicks ++ [⟨emailProps, noPerms, .resendClicked⟩])).resendTimeLeft = 0
    ∧ resendDisabled (run (ModalState.init emailProps)
        (sixtyTicks ++ [⟨emailProps, noPerms, .resendClicked⟩])) = false
    ∧ upstreamRecords (runEffects (ModalState.init emailProps)
        (sixtyTicks ++ [⟨emailProps, noPerms, .resendClicked⟩,
          ⟨emailProps, noPerms, .resendResponse none⟩,
          ⟨emailProps, noPerms, .resendClicked⟩])) = []
    ∧ runEffects (ModalState.init emailProps)
        (sixtyTicks ++ [⟨emailProps, noPerms, .resendClicked⟩,
          ⟨emailProps, noPerms, .resendResponse none⟩,
          ⟨emailProps, noPerms, .resendClicked⟩])
      = [.fetchResend, .consoleError .rejected,
          .addToast "Could not resend verification email." (some .rejected) true,
          .fetchResend] :=
  ⟨rfl, rfl, rfl, rfl, rfl⟩

/-- C6, amended. The cooldown gates resends from mount and is never
restarted: only a firing of the resend interval changes `resendTimeLeft`
(a resend click and a relayer response leave it as it is); after any run from
the initial state it equals `max 0 (60000 - 1000 * ticks)`; a resend request
is issued only by a click on the Resend control while it is rendered and the
cooldown is 0, so every resend request of a run is preceded by at least 60
ticks; and a relayer response with a truthy `success` sets `isEmailResent`,
after which the control is not rendered. -/
theorem resend_initial_cooldown :
    (∀ (p : Props) (q : Permissions) (s : ModalState) (e : Event),
        e.isResendInterval = false →
        (step p q s e).1.resendTimeLeft = s.resendTimeLeft)
    ∧ (∀ (p0 : Props) (is : List Input),
        (run (ModalState.init p0) is).resendTimeLeft
          = max 0 (60000 - 1000 * (tickCount is : Int)))
    ∧ (∀ (p : Props) (q : Permissions) (s : ModalState) (e : Event),
        Effect.fetchResend ∈ (step p q s e).2 →
        e = .resendClicked ∧ resendShown p s = true ∧ s.resendTimeLeft = 0)
    ∧ (∀ (p0 : Props) (is : List Input) (i : Input),
        Effect.fetchResend ∈ (step i.props i.perms (run (ModalState.init p0) is) i.event).2 →
        60 ≤ tickCount is)
    ∧ (∀ (p p1 : Props) (q : Permissions) (s : ModalState) (ps : JSObject),
        (ps.get "success").truthy = true →
        (step p q s (.resendResponse (some (.obj ps)))).1.isEmailResent = true
        ∧ resendShown p1 (step p q s (.resendResponse (some (.obj ps)))).1 = false) := by
  have hrun : ∀ (p0 : Props) (is : List Input),
      (run (ModalState.init p0) is).resendTimeLeft
        = max 0 (60000 - 1000 * (tickCount is : Int)) := by
    intro p0 is
    have := run_resendTimeLeft is (ModalState.init p0) 0 rfl
    simpa using this
  refine ⟨step_resendTimeLeft_of_not_tick, hrun, step_fetchResend, ?_, ?_⟩
  · intro p0 is i h
    have h0 := (step_fetchResend _ _ _ _ h).2.2
    rw [hrun] at h0
    omega
  · intro p p1 q s ps hs
    simp [step, sendConfirmationEmailResume, JSValue.member, hs, resendShown]

/-! ### Email-confirmation poll -/

/-- C7. Email-confirmation poll. (1) When the account's `emailConfRequired`
is truthy (in particular `true`) and a poll returns an identity object whose
`meta.emailConfirmed` is truthy, the confirmation flag becomes true and
`onAddAccount` is called exactly once, with the account in which
`emailConfRequired` is `false` and every other key is as in the account.
(2) In every state in which the flag is true, neither the effect's immediate
check nor an interval firing issues a request or changes the state. (3) When,
with the flag false, the poll returns an identity whose `meta.emailConfirmed`
is falsy, or (4) the poll fails, the flag stays false, `onAddAccount` is not
called, and the next interval firing issues a poll request. -/
theorem email_confirmation_poll :
    (∀ (p : Props) (q : Permissions) (s : ModalState) (ps ms : JSObject),
        (p.account.get "emailConfRequired").truthy = true →
        ps.get "meta" = .obj ms →
        (ms.get "emailConfirmed").truthy = true →
        (step p q s (.identityResponse (some (.obj ps)))).1.isEmailConfirmed = true
        ∧ upstreamRecords (step p q s (.identityResponse (some (.obj ps)))).2
            = [p.account.set "emailConfRequired" (.bool false)]
        ∧ (p.account.set "emailConfRequired" (.bool false)).get "emailConfRequired"
            = .bool false
        ∧ (∀ k, k ≠ "emailConfRequired" →
            (p.account.set "emailConfRequired" (.bool false)).get k = p.account.get k
            ∧ (p.account.set "emailConfRequired" (.bool false)).has k = p.account.has k))
    ∧ (∀ (p : Props) (q : Permissions) (s : ModalState),
        s.isEmailConfirmed = true →
        step p q s .emailConfirmationEffect = (s, [])
        ∧ step p q s .emailConfirmationInterval = (s, []))
    ∧ (∀ (p p1 : Props) (q q1 : Permissions) (s : ModalState) (ps ms : JSObject),
        s.isEmailConfirmed = false →
        ps.get "meta" = .obj ms →
        (ms.get "emailConfirmed").truthy = false →
        (step p q s (.identityResponse (some (.obj ps)))).1.isEmailConfirmed = false
        ∧ upstreamRecords (step p q s (.identityResponse (some (.obj ps)))).2 = []
        ∧ (step p1 q1 (step p q s (.identityResponse (some (.obj ps)))).1
            .emailConfirmationInterval).2 = [.fetchIdentity])
    ∧ (∀ (p p1 : Props) (q q1 : Permissions) (s : ModalState),
        s.isEmailConfirmed = false →
        (step p q s (.identityResponse none)).1.isEmailConfirmed = false
        ∧ upstreamRecords (step p q s (.identityResponse none)).2 = []
        ∧ (step p1 q1 (step p q s (.identityResponse none)).1
            .emailConfirmationInterval).2 = [.fetchIdentity]) := by
  refine ⟨?_, ?_, ?_, ?_⟩
  · intro p q s ps ms hr hm hc
    refine ⟨?_, ?_, get_set_self _ _ _, fun k hk =>
      ⟨get_set_ne _ _ _ _ hk, has_set_ne _ _ _ _ hk⟩⟩ <;>
      simp [step, checkEmailConfirmationResume, JSValue.member, JSValue.truthy_obj, hm, hc, hr,
        upstreamRecords]
  · intro p q s hs
    simp [step, pollIfUnconfirmed, hs]
  · intro p p1 q q1 s ps ms hs hm hc
    simp [step, checkEmailConfirmationResume, JSValue.member, JSValue.truthy_obj, hm, hc,
      upstreamRecords, pollIfUnconfirmed, checkEmailConfirmation]
  · intro p p1 q q1 s hs
    simp [step, checkEmailConfirmationResume, upstreamRecords, pollIfUnconfirmed,
      checkEmailConfirmation, hs]

/-- A poll answered with a confirmed identity for `newAccount`: the flag
flips, the account is re-submitted once with `emailConfRequired: false`, and
the next interval firing issues no request. -/
theorem poll_confirmed_newAccount :
    runEffects (ModalState.init emailProps)
        [⟨emailProps, noPerms, .emailConfirmationEffect⟩,
          ⟨emailProps, noPerms,
            .identityResponse (some (.obj [("meta", .obj [("emailConfirmed", .bool true)])]))⟩,
          ⟨emailProps, noPerms, .emailConfirmationInterval⟩]
      = [.fetchIdentity,
          .onAddAccount [("id", .str "0xA"), ("email", .str "a@b.c"),
            ("emailConfRequired", .bool false)]]
    ∧ (run (ModalState.init emailProps)
        [⟨emailProps, noPerms, .emailConfirmationEffect⟩,
          ⟨emailProps, noPerms,
            .identityResponse (some (.obj [("meta", .obj [("emailConfirmed", .bool true)])]))⟩
          ]).isEmailConfirmed = true :=
  ⟨rfl, rfl⟩

/-! ## Properties of AssetsMigrationBanner -/

theorem bannerRendered_of_no_assets (p : BannerProps) (s : BannerState)
    (h : s.hasSignerAssets = false) : bannerRendered p s ≠ some true := by
  unfold bannerRendered
  cases shouldShow p with
  | none => simp
  | some v => cases hv : v.truthy <;> simp [hv, h]

theorem string_append_left_cancel (a x y : String) (h : a ++ x = a ++ y) : x = y := by
  have hd := congrArg String.data h
  simp only [String.data_append] at hd
  exact String.ext (List.append_cancel_left hd)

theorem relevant_example :
    relevantAssets [⟨lit_0_0005⟩, ⟨lit_1_2⟩] = [⟨lit_1_2⟩] := by
  simp [relevantAssets, lit_0_0005, lit_1_2, lit_0_001, JSNum.gt, List.filter]
  norm_num

/-- C8. Relevance filter: the relevant assets of a detector result are
exactly its assets whose `balanceUSD` is greater than the number `0.001`
(for a finite balance: its value exceeds that of the double `0.001`; an asset
at exactly `0.001` is not relevant); a result delivered to a pending request
that was not cancelled sets `hasSignerAssets` to true iff the filtered list
is non-empty; when the filtered list is empty the banner is not rendered,
whatever the dismissal flag, the storage, the closeable flag, the wallet and
the account; and for the result `[{balanceUSD: 0.0005}, {balanceUSD: 1.2}]`
exactly one asset is relevant and the banner is rendered when `shouldShow`
is truthy and the message is not dismissed. -/
theorem relevance_filter :
    (∀ (assets : List Asset) (a : Asset),
        a ∈ relevantAssets assets ↔ a ∈ assets ∧ a.balanceUSD.gt lit_0_001 = true)
    ∧ (∀ q : ℚ, (JSNum.fin q).gt lit_0_001 = true
        ↔ q > 1152921504606847 / 1152921504606846976)
    ∧ (JSNum.posInf.gt lit_0_001 = true ∧ JSNum.negInf.gt lit_0_001 = false
        ∧ JSNum.nan.gt lit_0_001 = false)
    ∧ relevantAssets [⟨lit_0_001⟩] = []
    ∧ (∀ (p : BannerProps) (s : BannerState) (i : Nat) (assets : List Asset),
        s.runs[i]? = some ⟨false, some .pending⟩ →
        ((bannerStep p s (.resolved i assets)).1.hasSignerAssets = true
          ↔ relevantAssets assets ≠ []))
    ∧ (∀ (p p1 : BannerProps) (s : BannerState) (i : Nat) (assets : List Asset)
        (seen : Bool) (storage : JSObject),
        s.runs[i]? = some ⟨false, some .pending⟩ →
        relevantAssets assets = [] →
        bannerRendered p1
          { (bannerStep p s (.resolved i assets)).1 with
            migrationMessageSeen := seen, storage := storage } ≠ some true)
    ∧ (∀ (p : BannerProps) (s : BannerState),
        s.hasSignerAssets = false → bannerRendered p s ≠ some true)
    ∧ (relevantAssets [⟨lit_0_0005⟩, ⟨lit_1_2⟩]).length = 1
    ∧ (∀ (p p1 : BannerProps) (s : BannerState) (i : Nat) (v : JSValue),
        s.runs[i]? = some ⟨false, some .pending⟩ →
        shouldShow p1 = some v → v.truthy = true →
        bannerRendered p1
          { (bannerStep p s (.resolved i [⟨lit_0_0005⟩, ⟨lit_1_2⟩])).1 with
            migrationMessageSeen := false } = some true) := by
  refine ⟨?_, ?_, ⟨rfl, rfl, rfl⟩, ?_, ?_, ?_, bannerRendered_of_no_assets, ?_, ?_⟩
  · intro assets a
    simp [relevantAssets]
  · intro q
    simp [JSNum.gt, lit_0_001]
  · simp [relevantAssets, lit_0_001, JSNum.gt, List.filter]
  · intro p s i assets hi
    simp [bannerStep, hi, onAssets]
  · intro p p1 s i assets seen storage hi hr
    apply bannerRendered_of_no_assets
    simp [bannerStep, hi, onAssets, hr]
  · rw [relevant_example]; rfl
  · intro p p1 s i v hi hv ht
    simp [bannerStep, hi, onAssets, relevant_example, bannerRendered, hv, ht]

theorem read_assignTrue_self (o : JSObject) (k : String) (hk : k ≠ "__proto__") :
    JSObject.read (JSObject.assignTrue o k) k = .bool true
    ∧ JSObject.has (JSObject.assignTrue o k) k = true := by
  have hb : (k == "__proto__") = false := by simpa using hk
  unfold JSObject.assignTrue JSObject.read
  cases ho : JSObject.has o k <;>
    simp [hb, has_set_self, get_set_self]

theorem read_assignTrue_ne (o : JSObject) (k k1 : String) (hk : k1 ≠ k) :
    JSObject.read (JSObject.assignTrue o k) k1 = JSObject.read o k1
    ∧ JSObject.has (JSObject.assignTrue o k) k1 = JSObject.has o k1 := by
  unfold JSObject.assignTrue JSObject.read
  cases ho : JSObject.has o k <;> cases hp : (k == "__proto__") <;>
    simp [has_set_ne _ _ _ _ hk, get_set_ne _ _ _ _ hk]

theorem get_of_not_has (o : JSObject) (k : String) (ho : JSObject.has o k = false) :
    JSObject.get o k = .undefined := by
  unfold JSObject.get
  have hf : o.find? (fun p => p.1 == k) = none := by
    rw [List.find?_eq_none]
    intro x hx hxk
    have h1 : o.any (fun p => p.1 == k) = true := List.any_eq_true.mpr ⟨x, hx, hxk⟩
    rw [JSObject.has] at ho
    rw [ho] at h1
    exact Bool.noConfusion h1
  rw [hf]

theorem read_of_not_inherited (o : JSObject) (k : String)
    (hm : objectPrototypeMethods.contains k = false) (hp : k ≠ "__proto__") :
    JSObject.read o k = JSObject.get o k := by
  have hb : (k == "__proto__") = false := by simpa using hp
  unfold JSObject.read JSObject.inherited
  cases ho : JSObject.has o k
  · rw [get_of_not_has o k ho]
    simp only [hm, hb, Bool.false_eq_true, if_false]
  · simp

/-- C9, as stated, fails. With account id `to` and network ids `ethereum` and
`String`, from an empty map (nothing dismissed: no entry for `toString`
before or after), a dismissal for `(to, ethereum)` stores only `toethereum`,
yet the seen flag computed for `(to, String)` is true, because
`map["toString"]` reads the inherited method, and the banner for
`(to, String)` is not rendered although `shouldShow` is truthy and there are
signer assets. With the key `__proto__`, `closeMigrationMessage` stores
nothing: the map stays empty and `map["__proto__"]` is an object, not
`true`. -/
theorem dismissal_inherited_keys :
    shortIdPropsX.selectedAccount = shortIdPropsY.selectedAccount
    ∧ shortIdPropsX.networkId ≠ shortIdPropsY.networkId
    ∧ (BannerState.init []).storage.has "toString" = false
    ∧ (closeMigrationMessage shortIdPropsX (BannerState.init [])).storage
        = [("toethereum", .bool true)]
    ∧ (seenEffect shortIdPropsY
        (closeMigrationMessage shortIdPropsX (BannerState.init []))).migrationMessageSeen = true
    ∧ shouldShow shortIdPropsY = some (.bool true)
    ∧ bannerRendered shortIdPropsY
        { (seenEffect shortIdPropsY
            (closeMigrationMessage shortIdPropsX (BannerState.init []))) with
          hasSignerAssets := true } = some false
    ∧ protoKeyProps.selectedAccount ++ protoKeyProps.networkId = "__proto__"
    ∧ (closeMigrationMessage protoKeyProps (BannerState.init [])).storage = []
    ∧ ((closeMigrationMessage protoKeyProps (BannerState.init [])).storage.read
        "__proto__").typeof = "object" :=
  ⟨rfl, by decide, by decide, rfl, by decide, rfl, rfl, by decide, rfl, by decide⟩

/-- C9, amended. Dismissal is per (account, network) for the keys that
`Object.prototype` does not define. `closeMigrationMessage` executes
`map[key] = true` with `key = selectedAccount ++ selectedNetwork.id`: when
`key` is not `__proto__`, `map[key]` then reads `true`; every other key of the
`migrationSeen` map reads as before and has the same presence. For every
account id `A` and network ids `X ≠ Y`, after a dismissal for `(A, X)` from a
state in which `map[A ++ Y]` is not truthy, `map[A ++ Y]` is still not truthy,
the seen flag computed for `(A, Y)` is false for every closeable flag, and the
banner for `(A, Y)` is rendered whenever `shouldShow` is truthy and there are
signer assets. For a key that is neither a method of `Object.prototype` nor
`__proto__`, `map[key]` is the own entry (`undefined` when there is none). -/
theorem dismissal_per_account_network :
    (∀ (p : BannerProps) (s : BannerState),
        (p.selectedAccount ++ p.networkId ≠ "__proto__" →
          (closeMigrationMessage p s).storage.read (p.selectedAccount ++ p.networkId)
              = .bool true
          ∧ (closeMigrationMessage p s).storage.has (p.selectedAccount ++ p.networkId) = true)
        ∧ ∀ k, k ≠ p.selectedAccount ++ p.networkId →
            (closeMigrationMessage p s).storage.read k = s.storage.read k
            ∧ (closeMigrationMessage p s).storage.has k = s.storage.has k)
    ∧ (∀ (pX pY : BannerProps) (s : BannerState),
        pX.selectedAccount = pY.selectedAccount →
        pX.networkId ≠ pY.networkId →
        (s.storage.read (pY.selectedAccount ++ pY.networkId)).truthy = false →
        ((closeMigrationMessage pX s).storage.read (pY.selectedAccount ++ pY.networkId)).truthy
            = false
        ∧ (seenEffect pY (closeMigrationMessage pX s)).migrationMessageSeen = false
        ∧ (∀ v, shouldShow pY = some v → v.truthy = true → s.hasSignerAssets = true →
            bannerRendered pY (seenEffect pY (closeMigrationMessage pX s)) = some true))
    ∧ (∀ (o : JSObject) (k : String),
        objectPrototypeMethods.contains k = false → k ≠ "__proto__" →
        o.read k = o.get k ∧ (o.has k = false → (o.read k).truthy = false)) := by
  refine ⟨?_, ?_, ?_⟩
  · intro p s
    exact ⟨fun hk => read_assignTrue_self _ _ hk, fun k hk => read_assignTrue_ne _ _ _ hk⟩
  · intro pX pY s hA hXY hY
    have hk : pY.selectedAccount ++ pY.networkId ≠ pX.selectedAccount ++ pX.networkId := by
      rw [hA]
      intro h
      exact hXY (string_append_left_cancel _ _ _ h).symm
    have hg : (closeMigrationMessage pX s).storage.read (pY.selectedAccount ++ pY.networkId)
        = s.storage.read (pY.selectedAccount ++ pY.networkId) :=
      (read_assignTrue_ne _ _ _ hk).1
    have hseen : (seenEffect pY (closeMigrationMessage pX s)).migrationMessageSeen = false := by
      simp [seenEffect, hg, hY]
    refine ⟨by rw [hg, hY], hseen, ?_⟩
    intro v hv ht hs
    have hh : (seenEffect pY (closeMigrationMessage pX s)).hasSignerAssets = true := hs
    simp [bannerRendered, hv, ht, hseen, hh]
  · intro o k hm hp
    have hr := read_of_not_inherited o k hm hp
    refine ⟨hr, fun ho => ?_⟩
    rw [hr, get_of_not_has o k ho]
    rfl

theorem cleanupRuns_unmounted (runs : List DetectionRun)
    (h : ∀ (i : Nat) (r : DetectionRun), runs[i + 1]? = some r → r.unmounted = true) :
    ∀ (i : Nat) (r : DetectionRun), (cleanupRuns runs)[i]? = some r → r.unmounted = true := by
  intro i r hr
  cases runs with
  | nil => simp [cleanupRuns] at hr
  | cons r0 rs =>
    cases i with
    | zero =>
      simp only [cleanupRuns, List.getElem?_cons_zero, Option.some.injEq] at hr
      rw [← hr]
    | succ j =>
      simp only [cleanupRuns, List.getElem?_cons_succ] at hr
      exact h j r (by simpa using hr)

theorem cleanupRuns_head (r : DetectionRun) (rs : List DetectionRun) :
    ∃ r1, cleanupRuns (r :: rs) = r1 :: rs ∧ r1.request = r.request :=
  ⟨_, rfl, rfl⟩

theorem settle_tail (runs : List DetectionRun) (i : Nat) (u : Bool) (req req1 : Option Settlement)
    (h : ∀ (j : Nat) (r : DetectionRun), runs[j + 1]? = some r → r.unmounted = true)
    (hi : runs[i]? = some ⟨u, req⟩) :
    ∀ (j : Nat) (r : DetectionRun), (runs.set i ⟨u, req1⟩)[j + 1]? = some r →
      r.unmounted = true := by
  intro j r hr
  rw [List.getElem?_set] at hr
  split at hr
  · rename_i hij
    subst hij
    split at hr
    · simp only [Option.some.injEq] at hr
      rw [← hr]
      exact h j ⟨u, req⟩ hi
    · exact Option.noConfusion hr
  · exact h j r hr

theorem settle_head (r : DetectionRun) (rs : List DetectionRun) (i : Nat) (x y : DetectionRun)
    (hi : (r :: rs)[i]? = some x) (hne : r.request ≠ x.request) :
    ∃ rs1, (r :: rs).set i y = r :: rs1 := by
  cases i with
  | zero =>
    simp only [List.getElem?_cons_zero, Option.some.injEq] at hi
    exact absurd (congrArg DetectionRun.request hi) hne
  | succ j => exact ⟨_, List.set_cons_succ _ _ _ _⟩

theorem live_is_newest (runs : List DetectionRun) (i : Nat) (req : Option Settlement)
    (h : ∀ (j : Nat) (r : DetectionRun), runs[j + 1]? = some r → r.unmounted = true)
    (hi : runs[i]? = some ⟨false, req⟩) : i = 0 := by
  cases i with
  | zero => rfl
  | succ j => exact Bool.noConfusion (h j _ hi)

theorem bannerStep_inv (p : BannerProps) (s : BannerState) (e : BannerEvent)
    (hs : StaleInv s) : StaleInv (bannerStep p s e).1 := by
  obtain ⟨h1, h2⟩ := hs
  cases e with
  | detectionEffect =>
    have hc := cleanupRuns_unmounted s.runs h1
    simp only [bannerStep, detectionEffect]
    cases checkSignerAssets p <;>
      exact ⟨fun i r hr => hc i r (by simpa using hr), fun hf => Bool.noConfusion hf⟩
  | resolved i assets =>
    simp only [bannerStep]
    split
    · rename_i u hi
      refine ⟨settle_tail _ _ _ _ _ h1 hi, ?_⟩
      intro ht
      simp only [onAssets] at ht
      cases u with
      | true =>
        obtain ⟨r, rs, as, hr, hreq, hrel⟩ := h2 (by simpa using ht)
        rw [hr] at hi ⊢
        obtain ⟨rs1, hset⟩ := settle_head r rs i _ ⟨true, some (.resolved assets)⟩ hi
          (by rw [hreq]; simp)
        exact ⟨r, rs1, as, hset, hreq, hrel⟩
      | false =>
        have h0 := live_is_newest _ _ _ h1 hi
        subst h0
        cases hruns : s.runs with
        | nil => rw [hruns] at hi; simp at hi
        | cons r rs =>
          refine ⟨⟨false, some (.resolved assets)⟩, rs, assets, by simp [hruns], rfl, ?_⟩
          intro hnil
          simp [hnil] at ht
    · exact ⟨h1, h2⟩
  | rejected i =>
    simp only [bannerStep]
    split
    · rename_i u hi
      refine ⟨settle_tail _ _ _ _ _ h1 hi, ?_⟩
      intro ht
      obtain ⟨r, rs, as, hr, hreq, hrel⟩ := h2 ht
      have hi1 := hi
      rw [hr] at hi1
      obtain ⟨rs1, hset⟩ := settle_head r rs i _ ⟨u, some .rejected⟩ hi1
        (by rw [hreq]; simp)
      exact ⟨r, rs1, as, by rw [hr, hset], hreq, hrel⟩
    · exact ⟨h1, h2⟩
  | seenEffect => exact ⟨h1, h2⟩
  | closeClicked =>
    simp only [bannerStep]
    split <;> exact ⟨h1, h2⟩
  | unmount =>
    refine ⟨fun i r hr => cleanupRuns_unmounted s.runs h1 (i + 1) r hr, ?_⟩
    intro ht
    obtain ⟨r, rs, as, hr, hreq, hrel⟩ := h2 ht
    obtain ⟨r1, hc, hq⟩ := cleanupRuns_head r rs
    exact ⟨r1, rs, as, by simp only [bannerStep, hr, hc], hq ▸ hreq, hrel⟩

theorem bannerRun_inv (is : List BannerInput) :
    ∀ s : BannerState, StaleInv s → StaleInv (bannerRun s is) := by
  induction is with
  | nil => intro s hs; exact hs
  | cons i is ih => intro s hs; exact ih _ (bannerStep_inv i.props s i.event hs)

theorem staleInv_init (storage : JSObject) : StaleInv (BannerState.init storage) :=
  ⟨fun i r hr => by simp [BannerState.init] at hr, fun h => Bool.noConfusion h⟩

/-- C10. Stale detection results are discarded. Each run of the detection
effect sets the `unmounted` variable of the previous run, resets
`hasSignerAssets` to false and issues at most one detector request, with a
fresh variable of its own; a result delivered to a run whose variable is set
leaves `hasSignerAssets` unchanged; and in every state reachable from mount
every run but the newest has its variable set, and `hasSignerAssets` is true
only if the most recently issued request has resolved with at least one asset
whose `balanceUSD` exceeds `0.001`. -/
theorem stale_results_discarded :
    (∀ (p : BannerProps) (s : BannerState),
        (bannerStep p s .detectionEffect).1.hasSignerAssets = false
        ∧ (bannerStep p s .detectionEffect).2.length ≤ 1
        ∧ ∃ r, (bannerStep p s .detectionEffect).1.runs = r :: cleanupRuns s.runs
            ∧ r.unmounted = false
            ∧ (r.request.isSome = true ↔ (bannerStep p s .detectionEffect).2.length = 1))
    ∧ (∀ (r : DetectionRun) (rs : List DetectionRun),
        ∃ r1, cleanupRuns (r :: rs) = r1 :: rs ∧ r1.unmounted = true
          ∧ r1.request = r.request)
    ∧ (∀ (p : BannerProps) (s : BannerState) (i : Nat) (assets : List Asset)
        (r : DetectionRun),
        s.runs[i]? = some r → r.unmounted = true →
        (bannerStep p s (.resolved i assets)).1.hasSignerAssets = s.hasSignerAssets)
    ∧ (∀ (storage : JSObject) (is : List BannerInput),
        (∀ (i : Nat) (r : DetectionRun),
          (bannerRun (BannerState.init storage) is).runs[i + 1]? = some r →
          r.unmounted = true)
        ∧ ((bannerRun (BannerState.init storage) is).hasSignerAssets = true →
            ∃ r assets, latestRequest (bannerRun (BannerState.init storage) is).runs = some r
              ∧ r.request = some (.resolved assets)
              ∧ relevantAssets assets ≠ []
              ∧ ∃ a ∈ assets, a.balanceUSD.gt lit_0_001 = true)) := by
  refine ⟨?_, fun r rs => ⟨_, rfl, rfl, rfl⟩, ?_, ?_⟩
  · intro p s
    simp only [bannerStep, detectionEffect]
    cases checkSignerAssets p <;> simp
  · intro p s i assets r hi hu
    obtain ⟨u, req⟩ := r
    simp only at hu
    subst hu
    simp only [bannerStep, hi]
    split
    · rename_i u1 heq
      simp only [Option.some.injEq, DetectionRun.mk.injEq] at heq
      simp [onAssets, ← heq.1]
    · rfl
  · intro storage is
    obtain ⟨h1, h2⟩ := bannerRun_inv is _ (staleInv_init storage)
    refine ⟨h1, ?_⟩
    intro ht
    obtain ⟨r, rs, as, hr, hreq, hrel⟩ := h2 ht
    refine ⟨r, as, by simp [hr, latestRequest, hreq], hreq, hrel, ?_⟩
    obtain ⟨a, ha⟩ := List.exists_mem_of_ne_nil _ hrel
    have := List.mem_filter.mp ha
    exact ⟨a, this.1, this.2⟩

theorem backup_gate_witness :
    (buttons confirmedProps allPerms (ModalState.init confirmedProps)).doneDisabled = true
    ∧ (buttons confirmedProps allPerms
        (run (ModalState.init confirmedProps)
          [⟨confirmedProps, allPerms, .exportClicked⟩])).doneDisabled = false
    ∧ (confirmedProps.isBackupOptout = true
        ∨ ∃ i ∈ [(⟨confirmedProps, allPerms, .exportClicked⟩ : Input)],
            i.event = .exportClicked) :=
  ⟨(backup_gate.2.2.2.2.2.1 confirmedProps allPerms (ModalState.init confirmedProps) rfl).2,
    by decide,
    backup_gate.2.2.2.2.2.2 confirmedProps confirmedProps allPerms
      [⟨confirmedProps, allPerms, .exportClicked⟩] (by decide)⟩

theorem email_confirmation_gating_witness :
    ((buttons emailProps allPerms
        { (ModalState.init emailProps) with isJsonBackupDownloaded := true }).ignoreDisabled = true
      ∧ (buttons emailProps allPerms
        { (ModalState.init emailProps) with isJsonBackupDownloaded := true }).doneDisabled = true)
    ∧ (buttons confirmedProps allPerms
        { isEmailConfirmed := false, isEmailResent := false, isJsonBackupDownloaded := true,
          resendTimeLeft := 60000 }).doneDisabled = false :=
  ⟨email_confirmation_gating.1 emailProps allPerms
      { (ModalState.init emailProps) with isJsonBackupDownloaded := true } (by decide) rfl,
    ((email_confirmation_gating.2 confirmedProps allPerms
      { isEmailConfirmed := false, isEmailResent := false, isJsonBackupDownloaded := true,
        resendTimeLeft := 60000 } (by decide)).2.symm.trans (by decide))⟩

set_option maxRecDepth 20000 in
theorem resend_initial_cooldown_witness :
    Effect.fetchResend ∈
        (step emailProps noPerms (run (ModalState.init emailProps) sixtyTicks) .resendClicked).2
    ∧ 60 ≤ tickCount sixtyTicks :=
  have h : Effect.fetchResend ∈
      (step emailProps noPerms (run (ModalState.init emailProps) sixtyTicks) .resendClicked).2 :=
    (show (step emailProps noPerms (run (ModalState.init emailProps) sixtyTicks)
      .resendClicked).2 = [Effect.fetchResend] from rfl) ▸ List.mem_singleton_self _
  ⟨h, resend_initial_cooldown.2.2.2.1 emailProps sixtyTicks
    ⟨emailProps, noPerms, .resendClicked⟩ h⟩

theorem email_confirmation_poll_witness :
    (step emailProps noPerms (ModalState.init emailProps)
        (.identityResponse (some (.obj confirmedIdentity)))).1.isEmailConfirmed = true
    ∧ upstreamRecords (step emailProps noPerms (ModalState.init emailProps)
        (.identityResponse (some (.obj confirmedIdentity)))).2
      = [newAccount.set "emailConfRequired" (.bool false)] :=
  have h := email_confirmation_poll.1 emailProps noPerms (ModalState.init emailProps)
    confirmedIdentity [("emailConfirmed", .bool true)] (by decide) rfl (by decide)
  ⟨h.1, h.2.1⟩

theorem relevance_filter_witness :
    detecting.runs[0]? = some ⟨false, some .pending⟩
    ∧ shouldShow bannerPropsX = some (.bool true)
    ∧ bannerRendered bannerPropsX
        { (bannerStep bannerPropsX detecting (.resolved 0 [⟨lit_0_0005⟩, ⟨lit_1_2⟩])).1 with
          migrationMessageSeen := false } = some true :=
  ⟨rfl, rfl,
    relevance_filter.2.2.2.2.2.2.2.2 bannerPropsX bannerPropsX detecting 0 (.bool true) rfl rfl rfl⟩

theorem dismissal_per_account_network_witness :
    (seenEffect bannerPropsX
        (closeMigrationMessage bannerPropsX (BannerState.init []))).migrationMessageSeen = true
    ∧ (seenEffect bannerPropsY
        (closeMigrationMessage bannerPropsX (BannerState.init []))).migrationMessageSeen = false :=
  ⟨by decide,
    (dismissal_per_account_network.2.1 bannerPropsX bannerPropsY (BannerState.init []) rfl
      (by decide) (by decide)).2.1⟩

theorem stale_results_discarded_witness :
    redetecting.runs
        = [⟨false, some .pending⟩, ⟨true, some .pending⟩]
    ∧ (bannerStep bannerPropsY redetecting (.resolved 1 [⟨lit_1_2⟩])).1.hasSignerAssets = false
    ∧ (bannerStep bannerPropsY redetecting (.resolved 0 [⟨lit_1_2⟩])).1.hasSignerAssets = true :=
  ⟨rfl,
    stale_results_discarded.2.2.1 bannerPropsY redetecting 1 [⟨lit_1_2⟩]
      ⟨true, some .pending⟩ rfl rfl,
    by
      have h : redetecting.runs[0]? = some ⟨false, some .pending⟩ := rfl
      simp [bannerStep, h, onAssets, relevantAssets, lit_1_2, lit_0_001, JSNum.gt, List.filter]
      norm_num⟩

end Wallet
